import Mathlib

/-!
Shallow embedding of `src/main.py`: the `process_video` orchestration loop
and its CLI entry point.

External collaborators (cv2, the face detector, the emotion classifier, the
polar visualizer, `custom_concat`) are consumed as black boxes by the
source; here they are abstracted accordingly: images are symbolic terms
recording the operations that produced them, the classifier output for each
frame is an input of the model, and the visualizer is a parameter carrying
its label set and the fixed size of the plane images it renders.
-/

/-- Emotion probability vector: an insertion-ordered mapping from emotion
label to a numeric payload. The loop never computes with the values, it
only stores and copies them, so the payload type is immaterial; an integer
carrier keeps everything decidable. -/
abbrev EmotionVector := List (String × Int)

/-- Shape of the JSON document at `data_path`: an object mapping string
person keys to ordered arrays of vectors, in key insertion order. -/
abbrev Records := List (String × List EmotionVector)

/-- Content of the file at `data_path`. `json.load` raises on `malformed`
content; it succeeds on `nonObject` (valid JSON whose top level is not a
dict, so the later `.setdefault` raises AttributeError); `object` is a
loadable dict. -/
inductive FileContent
  | malformed
  | nonObject
  | object (records : Records)
deriving DecidableEq, Repr

/-- Logger-visible state: the content of the file at `data_path` (`none`
when the file does not exist) and how many `json.dump` calls have written
it so far. -/
structure St where
  file : Option FileContent
  writes : Nat
deriving DecidableEq, Repr

/-- Uncaught Python exceptions the logging block can raise. -/
inductive PyErr
  | jsonDecodeError
  | attributeError
deriving DecidableEq, Repr

/-- Line 99 of `main.py`: `records.setdefault(key, []).append(emot_probs)`
on an insertion-ordered dict. An existing key keeps its place and its array
grows at the end; a missing key is inserted at the end with a one-element
array. -/
def setdefaultAppend : Records → String → EmotionVector → Records
  | [], key, v => [(key, [v])]
  | p :: rest, key, v =>
    if p.1 = key then (p.1, p.2 ++ [v]) :: rest
    else p :: setdefaultAppend rest key v

/-- Dict lookup on an insertion-ordered association list. -/
def recLookup : Records → String → Option (List EmotionVector)
  | [], _ => none
  | p :: rest, key => if p.1 = key then some p.2 else recLookup rest key

/-- The array stored under a key, as an observer of the file state: the
empty array when the file is absent, unreadable, or lacks the key. -/
def storedList (file : Option FileContent) (key : String) : List EmotionVector :=
  match file with
  | some (.object records) => (recLookup records key).getD []
  | _ => []

/-- Lines 89-102 of `main.py`: one execution of the logging block for a
single `(person_idx, emot_probs)` pair. If the file is absent it is first
created as an empty JSON object (`json.dump` number one); then the document
is loaded, `records.setdefault(str(person_idx + 1), []).append(emot_probs)`
runs, and the whole document is dumped back (`json.dump` number two).
`json.load` raises on malformed content and `.setdefault` raises on a
non-dict top-level value; either exception propagates with the file and the
write count left as they were. -/
def logPerson (st : St) (person_idx : Nat) (v : EmotionVector) :
    Except (St × PyErr) St :=
  match st.file with
  | none =>
    .ok { file := some (.object (setdefaultAppend [] (toString (person_idx + 1)) v)),
          writes := st.writes + 2 }
  | some .malformed => .error (st, .jsonDecodeError)
  | some .nonObject => .error (st, .attributeError)
  | some (.object records) =>
    .ok { file := some (.object (setdefaultAppend records (toString (person_idx + 1)) v)),
          writes := st.writes + 1 }

lemma recLookup_setdefaultAppend_self (r : Records) (k : String) (v : EmotionVector) :
    recLookup (setdefaultAppend r k v) k = some ((recLookup r k).getD [] ++ [v]) := by
  induction r with
  | nil => simp [setdefaultAppend, recLookup]
  | cons p rest ih =>
    by_cases h : p.1 = k
    · simp [setdefaultAppend, recLookup, h]
    · simp [setdefaultAppend, recLookup, h, ih]

lemma recLookup_setdefaultAppend_ne (r : Records) (k k' : String) (v : EmotionVector)
    (h : k' ≠ k) :
    recLookup (setdefaultAppend r k v) k' = recLookup r k' := by
  have hne : k ≠ k' := fun hc => h hc.symm
  induction r with
  | nil => simp [setdefaultAppend, recLookup, hne]
  | cons p rest ih =>
    by_cases hp : p.1 = k
    · simp [setdefaultAppend, recLookup, hp, hne]
    · by_cases hp' : p.1 = k'
      · simp [setdefaultAppend, recLookup, hp, hp', h]
      · simp [setdefaultAppend, recLookup, hp, hp', ih]

/-- Effect of one logging-block execution on the stored arrays: the array
under the key of the logged person grows by that vector at the end; every
other key is untouched. -/
lemma logPerson_storedList (st st' : St) (idx : Nat) (v : EmotionVector) (k : String)
    (h : logPerson st idx v = Except.ok st') :
    storedList st'.file k =
      storedList st.file k ++ (if toString (idx + 1) = k then [v] else []) := by
  unfold logPerson at h
  match hf : st.file with
  | none =>
    rw [hf] at h
    cases h
    by_cases hk : toString (idx + 1) = k
    · subst hk
      simp [storedList, recLookup_setdefaultAppend_self, recLookup]
    · have hne : k ≠ toString (idx + 1) := fun hc => hk hc.symm
      simp [storedList, recLookup_setdefaultAppend_ne [] (toString (idx + 1)) k v hne,
        recLookup, hk]
  | some .malformed => rw [hf] at h; cases h
  | some .nonObject => rw [hf] at h; cases h
  | some (.object records) =>
    rw [hf] at h
    cases h
    by_cases hk : toString (idx + 1) = k
    · subst hk
      simp [storedList, recLookup_setdefaultAppend_self]
    · have hne : k ≠ toString (idx + 1) := fun hc => hk hc.symm
      simp [storedList,
        recLookup_setdefaultAppend_ne records (toString (idx + 1)) k v hne, hk]

/-- Identity passed to `visualize.visualize`: a detected person index, or
the literal string "unknown" used when no face is detected (line 111). -/
inductive VisIdentity
  | person (idx : Nat)
  | unknown
deriving DecidableEq, Repr

/-- Symbolic images. Raster contents are opaque to the loop, so an image is
the term of operations that produced it: `annotated` is the camera frame
after `drawBbox` and `labelEmotion`; `plane id v` is `visualize.plane` right
after `visualize.visualize(id, v)`; `resized`, `hconcat` and `customConcat`
record `cv2.resize`, `np.concatenate(axis=1)` and `custom_concat`. -/
inductive Image
  | annotated
  | plane (id : VisIdentity) (v : EmotionVector)
  | resized (base : Image) (w h : Nat)
  | hconcat (left right : Image)
  | customConcat (parts : List Image)

/-- The polar visualizer as consumed by the loop: the keys of its
`line_angles` dict (an ordered label list) and the fixed size of the
`plane` images it renders. -/
structure Visualizer where
  labels : List String
  planeW : Nat
  planeH : Nat
deriving DecidableEq, Repr

/-- Line 112 of `main.py`: the placeholder vector
`dict.fromkeys(list(visualize.line_angles.keys())[:-1], 0)` built on a
no-face frame — every label except the last mapped to 0, in label order. -/
def zeroVector (labels : List String) : EmotionVector :=
  labels.dropLast.map (fun l => (l, 0))

/-- One decoded frame as the loop observes it: the classifier output
`emots` (an insertion-ordered dict from person index to vector, empty when
no face is detected) and whether the quit-key poll of this iteration sees
the key q pressed. -/
structure Frame where
  emots : List (Nat × EmotionVector)
  quit : Bool
deriving DecidableEq, Repr

/-- Lines 73-102 of `main.py`: the `for person_idx, emot_probs in
emots.items()` loop. For each pair, in dict order: call
`visualize.visualize(person_idx, emot_probs)`, take `visualize.plane`,
resize it by `max(num_persons, 1)` in both dimensions (integer truncation
of nonnegative division, i.e. floor), append it to `graphs`, then run the
logging block. A logging exception propagates immediately (`n` is the
`num_persons` captured at line 74). Returns the final state, the `graphs`
list and the sequence of visualizer calls. -/
def framePersons (vis : Visualizer) (n : Nat) (st : St) :
    List (Nat × EmotionVector) →
      Except (St × PyErr) (St × List Image × List (VisIdentity × EmotionVector))
  | [] => .ok (st, [], [])
  | (idx, v) :: rest =>
    match logPerson st idx v with
    | .error r => .error r
    | .ok st' =>
      match framePersons vis n st' rest with
      | .error r => .error r
      | .ok (st'', gs, cs) =>
        .ok (st'',
          Image.resized (Image.plane (.person idx) v)
            (vis.planeW / max n 1) (vis.planeH / max n 1) :: gs,
          (VisIdentity.person idx, v) :: cs)

/-- Result of one loop iteration that completed without an exception. -/
structure FrameResult where
  st : St
  calls : List (VisIdentity × EmotionVector)
  graphs : List Image
  emot_graph : Image
  frame_combined : Image
  quit : Bool

/-- Lines 68-126 of `main.py`: the body of the while loop for one frame.
The annotated frame is resized to 700 x 500. If `emots` is non-empty the
per-person loop runs (visualize, resize, collect, log) and `emot_graph` is
`custom_concat(*graphs)` when `num_persons > 1`, else `graphs[0]`. If
`emots` is empty the visualizer is called once with the string "unknown"
and the placeholder vector, and `emot_graph` is that plane; no logging
happens. Then `emot_graph` is resized to 500 x 500, concatenated to the
right of the frame, the result resized to `width` x `height` and shown;
finally the quit key is polled. -/
def processFrame (vis : Visualizer) (width height : Nat) (st : St) (fr : Frame) :
    Except (St × PyErr) FrameResult :=
  let frameImg := Image.resized Image.annotated 700 500
  if fr.emots = [] then
    let zv := zeroVector vis.labels
    let eg := Image.plane VisIdentity.unknown zv
    .ok { st := st, calls := [(VisIdentity.unknown, zv)], graphs := [],
          emot_graph := eg,
          frame_combined :=
            Image.resized (Image.hconcat frameImg (Image.resized eg 500 500)) width height,
          quit := fr.quit }
  else
    match framePersons vis fr.emots.length st fr.emots with
    | .error r => .error r
    | .ok (st', gs, cs) =>
      let eg := if fr.emots.length > 1 then Image.customConcat gs
        else match gs with
          | g :: _ => g
          | [] => Image.customConcat []
      .ok { st := st', calls := cs, graphs := gs, emot_graph := eg,
            frame_combined :=
              Image.resized (Image.hconcat frameImg (Image.resized eg 500 500)) width height,
            quit := fr.quit }

/-- Why a run of `process_video` ended. -/
inductive Outcome
  | fileNotFound
  | couldNotOpen
  | endOfStream
  | quitKey
  | loopError (e : PyErr)
deriving DecidableEq, Repr

/-- Observable result of a run: how it ended, the final logger state,
whether `cap.release()` (line 131) and `cv2.destroyAllWindows()` (line 132)
were reached, and how many loop bodies ran past the `ret` check. -/
structure RunResult where
  outcome : Outcome
  st : St
  released : Bool
  destroyed : Bool
  framesProcessed : Nat
deriving DecidableEq, Repr

/-- Lines 62-132 of `main.py`: the while loop over the decoded frames,
followed by the cleanup lines. When the frames are exhausted (`ret` false)
or the quit key breaks the loop, lines 131-132 run and release the capture
and destroy the windows. An exception raised inside the body propagates out
of `process_video` with no cleanup: there is no try/finally around the
loop. -/
def runLoop (vis : Visualizer) (width height : Nat) (st : St) :
    List Frame → RunResult
  | [] =>
    { outcome := .endOfStream, st := st, released := true, destroyed := true,
      framesProcessed := 0 }
  | fr :: rest =>
    match processFrame vis width height st fr with
    | .error (st', e) =>
      { outcome := .loopError e, st := st', released := false, destroyed := false,
        framesProcessed := 1 }
    | .ok res =>
      if res.quit then
        { outcome := .quitKey, st := res.st, released := true, destroyed := true,
          framesProcessed := 1 }
      else
        let r := runLoop vis width height res.st rest
        { r with framesProcessed := r.framesProcessed + 1 }

/-- The run environment: which paths exist on disk (`Path(p).exists()`),
whether the backend can open the stream (`cap.isOpened()` after
`cv2.VideoCapture`), and the decoded frames with the classifier output and
the quit-key poll of each iteration. -/
structure Env where
  pathExists : String → Bool
  canOpen : Bool
  frames : List Frame

set_option linter.unusedVariables false in
/-- Lines 42-132 of `main.py`: `process_video`. It raises FileNotFoundError
if the video path does not exist, then RuntimeError if the backend cannot
open the stream; otherwise it runs the loop. `initFile` is the content at
`data_path` when the run starts. Line 60 creates only the parent directory
of `data_path`, never the file itself, so the `data_path` argument has no
observable effect beyond naming the single file this state models; the
`width` and `height` keyword defaults are 1200 and 400 as in the source. -/
def process_video (vis : Visualizer) (env : Env) (initFile : Option FileContent)
    (video_path : String := "test.mp4")
    (width : Nat := 1200) (height : Nat := 400)
    (data_path : String := "./uploads/data.json") : RunResult :=
  if env.pathExists video_path = false then
    { outcome := .fileNotFound, st := { file := initFile, writes := 0 },
      released := false, destroyed := false, framesProcessed := 0 }
  else if env.canOpen = false then
    { outcome := .couldNotOpen, st := { file := initFile, writes := 0 },
      released := false, destroyed := false, framesProcessed := 0 }
  else
    runLoop vis width height { file := initFile, writes := 0 } env.frames

/-- Lines 138-147 of `main.py`: the CLI entry point parses `--video`
(default "video.mp4"), `--width` (1200), `--height` (400) and `--data`
("./uploads/data.json") and forwards them to `process_video`. -/
def cliMain (vis : Visualizer) (env : Env) (initFile : Option FileContent)
    (video : String := "video.mp4")
    (width : Nat := 1200) (height : Nat := 400)
    (data : String := "./uploads/data.json") : RunResult :=
  process_video vis env initFile video width height data

/-- The vectors a frame list contributes to the array under a given string
key: per frame, in frame order, the vectors of the persons whose key
`str(person_idx + 1)` is that key, in dict order. -/
def vectorsForKey (k : String) : List Frame → List EmotionVector
  | [] => []
  | fr :: rest =>
    (fr.emots.filterMap fun p =>
      if toString (p.1 + 1) = k then some p.2 else none) ++ vectorsForKey k rest


lemma processFrame_quit (vis : Visualizer) (width height : Nat) (st : St) (fr : Frame)
    (res : FrameResult) (h : processFrame vis width height st fr = Except.ok res) :
    res.quit = fr.quit := by
  unfold processFrame at h
  by_cases he : fr.emots = []
  · rw [if_pos he] at h
    cases h
    rfl
  · rw [if_neg he] at h
    cases hf : framePersons vis fr.emots.length st fr.emots with
    | error r => rw [hf] at h; cases h
    | ok t =>
      obtain ⟨st', gs, cs⟩ := t
      rw [hf] at h
      dsimp only at h
      cases h
      rfl

/-- On a frame with no detected face the loop body leaves the logger state
untouched: the else branch at line 109 does no file access. -/
lemma processFrame_empty (vis : Visualizer) (width height : Nat) (st : St) (fr : Frame)
    (he : fr.emots = []) :
    processFrame vis width height st fr = Except.ok
      { st := st,
        calls := [(VisIdentity.unknown, zeroVector vis.labels)],
        graphs := [],
        emot_graph := Image.plane VisIdentity.unknown (zeroVector vis.labels),
        frame_combined := Image.resized
          (Image.hconcat (Image.resized Image.annotated 700 500)
            (Image.resized (Image.plane VisIdentity.unknown (zeroVector vis.labels)) 500 500))
          width height,
        quit := fr.quit } := by
  unfold processFrame
  rw [if_pos he]

lemma framePersons_shape (vis : Visualizer) (n : Nat) (st : St)
    (l : List (Nat × EmotionVector)) (st' : St) (gs : List Image)
    (cs : List (VisIdentity × EmotionVector))
    (h : framePersons vis n st l = Except.ok (st', gs, cs)) :
    gs = l.map (fun p => Image.resized (Image.plane (.person p.1) p.2)
        (vis.planeW / max n 1) (vis.planeH / max n 1)) ∧
    cs = l.map (fun p => (VisIdentity.person p.1, p.2)) := by
  induction l generalizing st gs cs with
  | nil =>
    unfold framePersons at h
    cases h
    exact ⟨rfl, rfl⟩
  | cons p rest ih =>
    obtain ⟨idx, v⟩ := p
    unfold framePersons at h
    cases hl : logPerson st idx v with
    | error e => rw [hl] at h; cases h
    | ok st1 =>
      rw [hl] at h
      dsimp only at h
      cases hr : framePersons vis n st1 rest with
      | error e => rw [hr] at h; cases h
      | ok t =>
        obtain ⟨st2, gs2, cs2⟩ := t
        rw [hr] at h
        cases h
        obtain ⟨h1, h2⟩ := ih st1 gs2 cs2 hr
        simp [h1, h2]

/-- The one extra `json.dump` of the empty object that initializes an
absent file, charged to the first logged pair if there is one. -/
def initWrites (file : Option FileContent) (l : List (Nat × EmotionVector)) : Nat :=
  match file, l with
  | none, _ :: _ => 1
  | _, _ => 0

lemma framePersons_writes_object (vis : Visualizer) (n : Nat) (st : St)
    (l : List (Nat × EmotionVector)) (st' : St) (gs : List Image)
    (cs : List (VisIdentity × EmotionVector)) (r : Records)
    (hf : st.file = some (FileContent.object r))
    (h : framePersons vis n st l = Except.ok (st', gs, cs)) :
    st'.writes = st.writes + l.length ∧
    ∃ r', st'.file = some (FileContent.object r') := by
  induction l generalizing st gs cs r with
  | nil =>
    unfold framePersons at h
    cases h
    exact ⟨rfl, r, hf⟩
  | cons p rest ih =>
    obtain ⟨idx, v⟩ := p
    unfold framePersons at h
    cases hl : logPerson st idx v with
    | error e => rw [hl] at h; cases h
    | ok st1 =>
      rw [hl] at h
      dsimp only at h
      cases hr : framePersons vis n st1 rest with
      | error e => rw [hr] at h; cases h
      | ok t =>
        obtain ⟨st2, gs2, cs2⟩ := t
        rw [hr] at h
        cases h
        unfold logPerson at hl
        rw [hf] at hl
        cases hl
        obtain ⟨hw, hr'⟩ := ih _ gs2 cs2 _ rfl hr
        refine ⟨?_, hr'⟩
        rw [hw]
        simp
        omega

lemma framePersons_writes (vis : Visualizer) (n : Nat) (st : St)
    (l : List (Nat × EmotionVector)) (st' : St) (gs : List Image)
    (cs : List (VisIdentity × EmotionVector))
    (h : framePersons vis n st l = Except.ok (st', gs, cs)) :
    st'.writes = st.writes + l.length + initWrites st.file l := by
  rcases hf : st.file with - | c
  · cases l with
    | nil =>
      unfold framePersons at h
      cases h
      simp [initWrites]
    | cons p rest =>
      obtain ⟨idx, v⟩ := p
      unfold framePersons at h
      cases hl : logPerson st idx v with
      | error e => rw [hl] at h; cases h
      | ok st1 =>
        rw [hl] at h
        dsimp only at h
        cases hr : framePersons vis n st1 rest with
        | error e => rw [hr] at h; cases h
        | ok t =>
          obtain ⟨st2, gs2, cs2⟩ := t
          rw [hr] at h
          cases h
          unfold logPerson at hl
          rw [hf] at hl
          cases hl
          obtain ⟨hw, -⟩ := framePersons_writes_object vis n _ rest _ _ _ _ rfl hr
          rw [hw]
          simp [initWrites]
          omega
  · cases c with
    | malformed =>
      cases l with
      | nil =>
        unfold framePersons at h
        cases h
        simp [initWrites, hf]
      | cons p rest =>
        obtain ⟨idx, v⟩ := p
        unfold framePersons at h
        have hl : logPerson st idx v = Except.error (st, PyErr.jsonDecodeError) := by
          unfold logPerson
          rw [hf]
        rw [hl] at h
        cases h
    | nonObject =>
      cases l with
      | nil =>
        unfold framePersons at h
        cases h
        simp [initWrites, hf]
      | cons p rest =>
        obtain ⟨idx, v⟩ := p
        unfold framePersons at h
        have hl : logPerson st idx v = Except.error (st, PyErr.attributeError) := by
          unfold logPerson
          rw [hf]
        rw [hl] at h
        cases h
    | object r =>
      obtain ⟨hw, -⟩ := framePersons_writes_object vis n st l st' gs cs r hf h
      rw [hw]
      cases l <;> simp [initWrites]

lemma framePersons_storedList (vis : Visualizer) (n : Nat) (st : St)
    (l : List (Nat × EmotionVector)) (st' : St) (gs : List Image)
    (cs : List (VisIdentity × EmotionVector)) (k : String)
    (h : framePersons vis n st l = Except.ok (st', gs, cs)) :
    storedList st'.file k = storedList st.file k ++
      (l.filterMap fun p => if toString (p.1 + 1) = k then some p.2 else none) := by
  induction l generalizing st gs cs with
  | nil =>
    unfold framePersons at h
    cases h
    simp
  | cons p rest ih =>
    obtain ⟨idx, v⟩ := p
    unfold framePersons at h
    cases hl : logPerson st idx v with
    | error e => rw [hl] at h; cases h
    | ok st1 =>
      rw [hl] at h
      dsimp only at h
      cases hr : framePersons vis n st1 rest with
      | error e => rw [hr] at h; cases h
      | ok t =>
        obtain ⟨st2, gs2, cs2⟩ := t
        rw [hr] at h
        cases h
        have h1 := logPerson_storedList st st1 idx v k hl
        have h2 := ih st1 gs2 cs2 hr
        rw [h2, h1]
        by_cases hk : toString (idx + 1) = k <;>
          simp [hk, List.filterMap_cons]

lemma processFrame_storedList (vis : Visualizer) (width height : Nat) (st : St)
    (fr : Frame) (res : FrameResult) (k : String)
    (h : processFrame vis width height st fr = Except.ok res) :
    storedList res.st.file k = storedList st.file k ++
      (fr.emots.filterMap fun p => if toString (p.1 + 1) = k then some p.2 else none) := by
  unfold processFrame at h
  by_cases he : fr.emots = []
  · rw [if_pos he] at h
    cases h
    simp [he]
  · rw [if_neg he] at h
    cases hf : framePersons vis fr.emots.length st fr.emots with
    | error e => rw [hf] at h; cases h
    | ok t =>
      obtain ⟨st', gs, cs⟩ := t
      rw [hf] at h
      dsimp only at h
      cases h
      exact framePersons_storedList vis fr.emots.length st fr.emots st' gs cs k hf

lemma processFrame_writes (vis : Visualizer) (width height : Nat) (st : St)
    (fr : Frame) (res : FrameResult)
    (h : processFrame vis width height st fr = Except.ok res) :
    res.st.writes = st.writes + fr.emots.length + initWrites st.file fr.emots := by
  unfold processFrame at h
  by_cases he : fr.emots = []
  · rw [if_pos he] at h
    cases h
    rw [he]
    simp [initWrites]
  · rw [if_neg he] at h
    cases hf : framePersons vis fr.emots.length st fr.emots with
    | error e => rw [hf] at h; cases h
    | ok t =>
      obtain ⟨st', gs, cs⟩ := t
      rw [hf] at h
      dsimp only at h
      cases h
      exact framePersons_writes vis fr.emots.length st fr.emots st' gs cs hf

lemma runLoop_release_iff (vis : Visualizer) (width height : Nat) (st : St)
    (frames : List Frame) :
    ((runLoop vis width height st frames).released = true ∧
      (runLoop vis width height st frames).destroyed = true) ↔
      ((runLoop vis width height st frames).outcome = Outcome.endOfStream ∨
        (runLoop vis width height st frames).outcome = Outcome.quitKey) := by
  induction frames generalizing st with
  | nil => simp [runLoop]
  | cons fr rest ih =>
    unfold runLoop
    cases hp : processFrame vis width height st fr with
    | error e =>
      obtain ⟨st', pe⟩ := e
      simp
    | ok res =>
      dsimp only
      by_cases hq : res.quit
      · simp [hq]
      · simp only [hq, if_false, Bool.false_eq_true]
        exact ih res.st

/-- A concrete visualizer used to evaluate the model on explicit inputs. -/
def visEx : Visualizer := { labels := ["a", "b", "c"], planeW := 500, planeH := 400 }

/-- C1: each logging-block execution for a detected pair appends the vector
at the end of the array under the string key `str(person_index + 1)` in the
document at `data_path`, leaves every other key untouched, and never
overwrites earlier entries; hence two successive calls for the same person
leave both vectors, in call order. -/
theorem C1_logging_appends_in_call_order (st st' : St) (person_idx : Nat)
    (v : EmotionVector)
    (h : logPerson st person_idx v = Except.ok st') :
    storedList st'.file (toString (person_idx + 1)) =
      storedList st.file (toString (person_idx + 1)) ++ [v] ∧
    ∀ k, k ≠ toString (person_idx + 1) →
      storedList st'.file k = storedList st.file k := by
  constructor
  · have := logPerson_storedList st st' person_idx v (toString (person_idx + 1)) h
    simpa using this
  · intro k hk
    have := logPerson_storedList st st' person_idx v k h
    rw [this, if_neg (fun hc => hk hc.symm), List.append_nil]

/-- Witness for C1: from a document whose array under "1" already holds one
vector, a second logging call for person index 0 yields the two distinct
vectors in call order, an array of length 2. -/
theorem C1_witness :
    ∃ st1 st2 : St,
      logPerson { file := some (FileContent.object []), writes := 0 } 0 [("a", 1)] =
        Except.ok st1 ∧
      logPerson st1 0 [("a", 2)] = Except.ok st2 ∧
      storedList st2.file (toString (0 + 1)) = [[("a", 1)], [("a", 2)]] := by
  refine ⟨{ file := some (FileContent.object [("1", [[("a", 1)]])]), writes := 1 },
    { file := some (FileContent.object [("1", [[("a", 1)], [("a", 2)]])]), writes := 2 },
    rfl, rfl, ?_⟩
  rw [(C1_logging_appends_in_call_order
    { file := some (FileContent.object [("1", [[("a", 1)]])]), writes := 1 }
    { file := some (FileContent.object [("1", [[("a", 1)], [("a", 2)]])]), writes := 2 }
    0 [("a", 2)] rfl).1]
  rfl

/-- C6: if the video path does not exist, `process_video` ends with the
FileNotFoundError before the stream is opened (whatever `canOpen` says) and
before any frame is read; if the path exists but the backend cannot open
the stream, it ends with the RuntimeError before the loop starts. In both
cases no frame is processed, nothing is written and the cleanup lines are
never reached. -/
theorem C6_startup_errors (vis : Visualizer) (env : Env)
    (initFile : Option FileContent) (video_path : String) (width height : Nat)
    (data_path : String) :
    (env.pathExists video_path = false →
      process_video vis env initFile video_path width height data_path =
        { outcome := .fileNotFound, st := { file := initFile, writes := 0 },
          released := false, destroyed := false, framesProcessed := 0 }) ∧
    (env.pathExists video_path = true → env.canOpen = false →
      process_video vis env initFile video_path width height data_path =
        { outcome := .couldNotOpen, st := { file := initFile, writes := 0 },
          released := false, destroyed := false, framesProcessed := 0 }) := by
  constructor
  · intro h1
    simp [process_video, h1]
  · intro h1 h2
    simp [process_video, h1, h2]

/-- Witness for C6 at a concrete input: with no file on disk the run ends
in the file-not-found outcome with zero frames processed and zero writes. -/
theorem C6_witness :
    process_video visEx
        { pathExists := fun _ => false, canOpen := true,
          frames := [{ emots := [(0, [("a", 1)])], quit := false }] }
        none "missing.mp4" 1200 400 "./uploads/data.json" =
      { outcome := .fileNotFound, st := { file := none, writes := 0 },
        released := false, destroyed := false, framesProcessed := 0 } :=
  (C6_startup_errors visEx
    { pathExists := fun _ => false, canOpen := true,
      frames := [{ emots := [(0, [("a", 1)])], quit := false }] }
    none "missing.mp4" 1200 400 "./uploads/data.json").1 rfl

/-- C10: a call of `process_video` without an explicit video path uses the
default "test.mp4" while the CLI entry point defaults `--video` to
"video.mp4"; the two defaults differ, so a bare library call and a bare CLI
invocation read different input files, and the bare library call ends in
the file-not-found outcome whenever test.mp4 does not exist. -/
theorem C10_default_video_paths_differ (vis : Visualizer) (env : Env)
    (initFile : Option FileContent) :
    process_video vis env initFile =
      process_video vis env initFile "test.mp4" 1200 400 "./uploads/data.json" ∧
    cliMain vis env initFile =
      process_video vis env initFile "video.mp4" 1200 400 "./uploads/data.json" ∧
    ("test.mp4" : String) ≠ "video.mp4" ∧
    (env.pathExists "test.mp4" = false →
      (process_video vis env initFile).outcome = Outcome.fileNotFound) := by
  refine ⟨rfl, rfl, by decide, ?_⟩
  intro h
  simp [process_video, h]

/-- Witness for C10 at a concrete input: in an environment where only
video.mp4 exists, the bare library call fails with file-not-found while the
bare CLI invocation reaches the loop. -/
theorem C10_witness :
    (process_video visEx
        { pathExists := fun p => p == "video.mp4", canOpen := true, frames := [] }
        none).outcome = Outcome.fileNotFound ∧
    (cliMain visEx
        { pathExists := fun p => p == "video.mp4", canOpen := true, frames := [] }
        none).outcome = Outcome.endOfStream := by
  refine ⟨?_, rfl⟩
  exact (C10_default_video_paths_differ visEx
    { pathExists := fun p => p == "video.mp4", canOpen := true, frames := [] }
    none).2.2.2 rfl

/-- Counterexample to C2: a face-containing frame with two detected persons
produces two full-document rewrites of the file at `data_path`, not one —
the logging block, dumps included, sits inside the per-person loop. -/
theorem C2_counterexample :
    ∃ res : FrameResult,
      processFrame visEx 1200 400 { file := some (FileContent.object []), writes := 0 }
        { emots := [(0, [("a", 1)]), (1, [("b", 1)])], quit := false } =
        Except.ok res ∧
      res.st.writes = 2 ∧ (2 : Nat) ≠ 1 := by
  refine ⟨_, rfl, rfl, by decide⟩

/-- C2 amended: for every processed frame that completes without an
exception, the number of full-document rewrites of `data_path` is the
number of detected persons (one per pair, zero for a face-free frame), plus
one extra initializing write of the empty object when the file did not yet
exist and at least one person is logged. -/
theorem C2_amended_one_write_per_person (vis : Visualizer) (width height : Nat)
    (st : St) (fr : Frame) (res : FrameResult)
    (h : processFrame vis width height st fr = Except.ok res) :
    res.st.writes = st.writes + fr.emots.length + initWrites st.file fr.emots :=
  processFrame_writes vis width height st fr res h

/-- Witness for the amended C2: an absent file and two detected persons
give three dumps — the initializing empty object plus one per person. -/
theorem C2_amended_witness :
    ∃ res : FrameResult,
      processFrame visEx 1200 400 { file := none, writes := 0 }
        { emots := [(0, [("a", 1)]), (1, [("b", 1)])], quit := false } =
        Except.ok res ∧
      res.st.writes = 3 := by
  refine ⟨_, rfl, ?_⟩
  rw [C2_amended_one_write_per_person visEx 1200 400 { file := none, writes := 0 }
    { emots := [(0, [("a", 1)]), (1, [("b", 1)])], quit := false } _ rfl]
  rfl

/-- C7: on a frame with `N ≥ 1` detected persons, the collected `graphs`
list holds, in the arrival order of the mapping, each person's plane of
original size `planeW x planeH` resized to the integer-truncated dimensions
`planeW / N` by `planeH / N`. -/
theorem C7_graphs_scaled_by_person_count (vis : Visualizer) (width height : Nat)
    (st : St) (fr : Frame) (res : FrameResult)
    (hne : fr.emots ≠ [])
    (h : processFrame vis width height st fr = Except.ok res) :
    res.graphs = fr.emots.map (fun p =>
      Image.resized (Image.plane (.person p.1) p.2)
        (vis.planeW / fr.emots.length) (vis.planeH / fr.emots.length)) := by
  have hmax : max fr.emots.length 1 = fr.emots.length :=
    Nat.max_eq_left (Nat.one_le_iff_ne_zero.mpr
      (fun hz => hne (List.length_eq_zero.mp hz)))
  unfold processFrame at h
  rw [if_neg hne] at h
  cases hf : framePersons vis fr.emots.length st fr.emots with
  | error e => rw [hf] at h; cases h
  | ok t =>
    obtain ⟨st', gs, cs⟩ := t
    rw [hf] at h
    dsimp only at h
    cases h
    have := (framePersons_shape vis fr.emots.length st fr.emots st' gs cs hf).1
    rw [this, hmax]

/-- Witness for C7: two persons with a 500 x 400 plane give plots resized
to 250 x 200, listed in arrival order. -/
theorem C7_witness :
    ∃ res : FrameResult,
      processFrame visEx 1200 400 { file := some (FileContent.object []), writes := 5 }
        { emots := [(3, [("a", 7)]), (0, [("b", 9)])], quit := false } =
        Except.ok res ∧
      res.graphs =
        [Image.resized (Image.plane (.person 3) [("a", 7)]) 250 200,
         Image.resized (Image.plane (.person 0) [("b", 9)]) 250 200] := by
  refine ⟨_, rfl, ?_⟩
  rw [C7_graphs_scaled_by_person_count visEx 1200 400
    { file := some (FileContent.object []), writes := 5 }
    { emots := [(3, [("a", 7)]), (0, [("b", 9)])], quit := false } _
    (by simp) rfl]
  rfl

/-- C8: on a frame whose detection mapping is empty, the visualizer is
invoked exactly once, with the identity "unknown" and the vector mapping
every label of the visualizer's label set except the last to probability 0;
that single placeholder plane becomes the composed plot image, and the
logger state is untouched — no write happens for that frame. -/
theorem C8_empty_mapping_placeholder (vis : Visualizer) (width height : Nat)
    (st : St) (fr : Frame) (res : FrameResult)
    (he : fr.emots = [])
    (h : processFrame vis width height st fr = Except.ok res) :
    res.calls = [(VisIdentity.unknown, vis.labels.dropLast.map (fun l => (l, 0)))] ∧
    res.emot_graph =
      Image.plane VisIdentity.unknown (vis.labels.dropLast.map (fun l => (l, 0))) ∧
    res.st = st := by
  rw [processFrame_empty vis width height st fr he] at h
  cases h
  exact ⟨rfl, rfl, rfl⟩

/-- Witness for C8: a concrete empty-detection frame yields the single
"unknown" call with zeros on all labels but the last, and no state
change. -/
theorem C8_witness :
    ∃ res : FrameResult,
      processFrame visEx 1200 400 { file := none, writes := 0 }
        { emots := [], quit := false } = Except.ok res ∧
      res.calls = [(VisIdentity.unknown, [("a", 0), ("b", 0)])] ∧
      res.st = { file := none, writes := 0 } := by
  refine ⟨_, rfl, ?_, ?_⟩
  · rw [(C8_empty_mapping_placeholder visEx 1200 400 { file := none, writes := 0 }
      { emots := [], quit := false } _ rfl rfl).1]
    rfl
  · rfl

/-- Counterexample to C3: an uncaught error inside the loop body (here the
first logging step finding malformed content at `data_path`) terminates
`process_video` with the capture never released and the window never
destroyed — there is no try/finally around the loop. -/
theorem C3_counterexample :
    (process_video visEx
        { pathExists := fun _ => true, canOpen := true,
          frames := [{ emots := [(0, [("a", 1)])], quit := false }] }
        (some FileContent.malformed) "clip.mp4" 1200 400 "./uploads/data.json").released
        = false ∧
    (process_video visEx
        { pathExists := fun _ => true, canOpen := true,
          frames := [{ emots := [(0, [("a", 1)])], quit := false }] }
        (some FileContent.malformed) "clip.mp4" 1200 400 "./uploads/data.json").destroyed
        = false ∧
    (process_video visEx
        { pathExists := fun _ => true, canOpen := true,
          frames := [{ emots := [(0, [("a", 1)])], quit := false }] }
        (some FileContent.malformed) "clip.mp4" 1200 400 "./uploads/data.json").outcome
        = Outcome.loopError PyErr.jsonDecodeError :=
  ⟨rfl, rfl, rfl⟩

/-- C3 amended: the capture is released and the window destroyed exactly on
the two normal exits — end of stream and quit key. On an uncaught error in
the loop body, and on the two startup failures, the function terminates
without reaching the release and destroy lines. -/
theorem C3_amended_cleanup_only_on_normal_exits (vis : Visualizer) (env : Env)
    (initFile : Option FileContent) (video_path : String) (width height : Nat)
    (data_path : String) (res : RunResult)
    (h : process_video vis env initFile video_path width height data_path = res) :
    (res.released = true ∧ res.destroyed = true) ↔
      (res.outcome = Outcome.endOfStream ∨ res.outcome = Outcome.quitKey) := by
  subst h
  unfold process_video
  by_cases h1 : env.pathExists video_path = false
  · rw [if_pos h1]
    simp
  · rw [if_neg h1]
    by_cases h2 : env.canOpen = false
    · rw [if_pos h2]
      simp
    · rw [if_neg h2]
      exact runLoop_release_iff vis width height { file := initFile, writes := 0 } env.frames

/-- Witness for the amended C3: a run that reaches end of stream releases
the capture and destroys the window. -/
theorem C3_amended_witness :
    ((process_video visEx { pathExists := fun _ => true, canOpen := true, frames := [] }
        none "clip.mp4" 1200 400 "./uploads/data.json").released = true ∧
      (process_video visEx { pathExists := fun _ => true, canOpen := true, frames := [] }
        none "clip.mp4" 1200 400 "./uploads/data.json").destroyed = true) ↔
      ((process_video visEx { pathExists := fun _ => true, canOpen := true, frames := [] }
        none "clip.mp4" 1200 400 "./uploads/data.json").outcome = Outcome.endOfStream ∨
        (process_video visEx { pathExists := fun _ => true, canOpen := true, frames := [] }
        none "clip.mp4" 1200 400 "./uploads/data.json").outcome = Outcome.quitKey) :=
  C3_amended_cleanup_only_on_normal_exits visEx
    { pathExists := fun _ => true, canOpen := true, frames := [] }
    none "clip.mp4" 1200 400 "./uploads/data.json" _ rfl

lemma runLoop_skips_faceless_frames (vis : Visualizer) (width height : Nat) (st : St)
    (pre rest : List Frame)
    (hpre : ∀ fr ∈ pre, fr.emots = [])
    (hq : ∀ fr ∈ pre, fr.quit = false) :
    (runLoop vis width height st (pre ++ rest)).st =
      (runLoop vis width height st rest).st := by
  induction pre with
  | nil => rfl
  | cons fr pre' ih =>
    have he : fr.emots = [] := hpre fr (List.mem_cons_self fr pre')
    have hqf : fr.quit = false := hq fr (List.mem_cons_self fr pre')
    show (runLoop vis width height st (fr :: (pre' ++ rest))).st = _
    simp only [runLoop]
    rw [processFrame_empty vis width height st fr he]
    dsimp only
    rw [hqf, if_neg Bool.false_ne_true]
    exact ih (fun f hf => hpre f (List.mem_cons_of_mem fr hf))
      (fun f hf => hq f (List.mem_cons_of_mem fr hf))

/-- C4: frames with an empty detection mapping neither create nor touch the
file at `data_path`: processing any such prefix (with no quit press in it)
leaves the logger state exactly as it was, so nothing is written before the
first frame with a non-empty mapping, and a run whose every frame is
face-free never creates the file when it starts absent. -/
theorem C4_no_write_before_first_face (vis : Visualizer) (width height : Nat)
    (st : St) (pre rest : List Frame)
    (hpre : ∀ fr ∈ pre, fr.emots = [])
    (hq : ∀ fr ∈ pre, fr.quit = false) :
    (runLoop vis width height st (pre ++ rest)).st =
      (runLoop vis width height st rest).st ∧
    (runLoop vis width height st pre).st = st := by
  refine ⟨runLoop_skips_faceless_frames vis width height st pre rest hpre hq, ?_⟩
  have h := runLoop_skips_faceless_frames vis width height st pre [] hpre hq
  rw [List.append_nil] at h
  rw [h]
  rfl

/-- Witness for C4: two face-free frames starting from an absent file leave
the state untouched — the file is never created and no write happens. -/
theorem C4_witness :
    (runLoop visEx 1200 400 { file := none, writes := 0 }
        [{ emots := [], quit := false }, { emots := [], quit := false }]).st =
      { file := none, writes := 0 } :=
  (C4_no_write_before_first_face visEx 1200 400 { file := none, writes := 0 }
    [{ emots := [], quit := false }, { emots := [], quit := false }] []
    (by decide) (by decide)).2

/-- C5: the log is append-only across a completed run: for every key, the
array stored at the end extends the initial one, in order, by exactly the
vectors of the processed frames, in frame order and per-frame dict order —
previously stored keys and entries are never dropped, reordered or
overwritten. -/
theorem C5_append_only_history (vis : Visualizer) (width height : Nat) (st : St)
    (frames : List Frame) (res : RunResult) (k : String)
    (hq : ∀ fr ∈ frames, fr.quit = false)
    (h : runLoop vis width height st frames = res)
    (hend : res.outcome = Outcome.endOfStream) :
    storedList res.st.file k = storedList st.file k ++ vectorsForKey k frames := by
  induction frames generalizing st res with
  | nil =>
    unfold runLoop at h
    subst h
    simp [vectorsForKey]
  | cons fr rest ih =>
    unfold runLoop at h
    cases hp : processFrame vis width height st fr with
    | error e =>
      obtain ⟨st', pe⟩ := e
      rw [hp] at h
      subst h
      simp at hend
    | ok fres =>
      rw [hp] at h
      dsimp only at h
      have hqf : fres.quit = false := by
        rw [processFrame_quit vis width height st fr fres hp]
        exact hq fr (List.mem_cons_self fr rest)
      rw [hqf, if_neg Bool.false_ne_true] at h
      have hres_st : res.st = (runLoop vis width height fres.st rest).st := by
        rw [← h]
      have hres_out : res.outcome = (runLoop vis width height fres.st rest).outcome := by
        rw [← h]
      rw [hres_out] at hend
      have ihr := ih fres.st (runLoop vis width height fres.st rest)
        (fun f hf => hq f (List.mem_cons_of_mem fr hf)) rfl hend
      rw [hres_st, ihr, processFrame_storedList vis width height st fr fres k hp]
      simp [vectorsForKey, List.append_assoc]

/-- Witness for C5: a two-frame run for person index 0 ends with the array
under "1" holding both vectors in frame order. -/
theorem C5_witness :
    ∃ res : RunResult,
      runLoop visEx 1200 400 { file := none, writes := 0 }
        [{ emots := [(0, [("a", 1)])], quit := false },
         { emots := [(0, [("a", 2)])], quit := false }] = res ∧
      storedList res.st.file "1" = [[("a", 1)], [("a", 2)]] := by
  refine ⟨_, rfl, ?_⟩
  rw [C5_append_only_history visEx 1200 400 { file := none, writes := 0 }
    [{ emots := [(0, [("a", 1)])], quit := false },
     { emots := [(0, [("a", 2)])], quit := false }] _ "1" (by decide) rfl rfl]
  rfl

/-- C9: when a file already exists at `data_path` whose content is not a
loadable JSON object, the first frame with a detected face skips the
re-initialization (the existence check sees the file), and the load or the
key-append raises: the run terminates on that frame with an uncaught error,
the file neither repaired nor overwritten and no further frame processed.
Malformed content raises at `json.load`, a non-dict top level at
`.setdefault`. -/
theorem C9_invalid_existing_file_uncaught_error (vis : Visualizer)
    (width height : Nat) (st : St) (fr : Frame) (rest : List Frame)
    (hne : fr.emots ≠ [])
    (hbad : st.file = some FileContent.malformed ∨
      st.file = some FileContent.nonObject) :
    ∃ e : PyErr,
      runLoop vis width height st (fr :: rest) =
        { outcome := Outcome.loopError e, st := st, released := false,
          destroyed := false, framesProcessed := 1 } ∧
      (st.file = some FileContent.malformed → e = PyErr.jsonDecodeError) ∧
      (st.file = some FileContent.nonObject → e = PyErr.attributeError) := by
  obtain ⟨p, l, hfr⟩ := List.exists_cons_of_ne_nil hne
  obtain ⟨idx, v⟩ := p
  rcases hbad with hb | hb
  · have hlp : logPerson st idx v = Except.error (st, PyErr.jsonDecodeError) := by
      unfold logPerson
      rw [hb]
    have hpf : processFrame vis width height st fr =
        Except.error (st, PyErr.jsonDecodeError) := by
      unfold processFrame
      rw [hfr, if_neg (List.cons_ne_nil _ _)]
      unfold framePersons
      rw [hlp]
    refine ⟨PyErr.jsonDecodeError, ?_, fun _ => rfl, fun hc => ?_⟩
    · unfold runLoop
      rw [hpf]
    · rw [hb] at hc
      simp at hc
  · have hlp : logPerson st idx v = Except.error (st, PyErr.attributeError) := by
      unfold logPerson
      rw [hb]
    have hpf : processFrame vis width height st fr =
        Except.error (st, PyErr.attributeError) := by
      unfold processFrame
      rw [hfr, if_neg (List.cons_ne_nil _ _)]
      unfold framePersons
      rw [hlp]
    refine ⟨PyErr.attributeError, ?_, fun hc => ?_, fun _ => rfl⟩
    · unfold runLoop
      rw [hpf]
    · rw [hb] at hc
      simp at hc

/-- Witness for C9: a malformed file and a one-person frame end the run at
frame one with the JSON decode error and the file untouched. -/
theorem C9_witness :
    ∃ e : PyErr,
      runLoop visEx 1200 400 { file := some FileContent.malformed, writes := 0 }
        [{ emots := [(0, [("a", 1)])], quit := false },
         { emots := [(0, [("a", 2)])], quit := false }] =
        { outcome := Outcome.loopError e,
          st := { file := some FileContent.malformed, writes := 0 },
          released := false, destroyed := false, framesProcessed := 1 } ∧
      (({ file := some FileContent.malformed, writes := 0 } : St).file =
          some FileContent.malformed → e = PyErr.jsonDecodeError) ∧
      (({ file := some FileContent.malformed, writes := 0 } : St).file =
          some FileContent.nonObject → e = PyErr.attributeError) :=
  C9_invalid_existing_file_uncaught_error visEx 1200 400
    { file := some FileContent.malformed, writes := 0 }
    { emots := [(0, [("a", 1)])], quit := false }
    [{ emots := [(0, [("a", 2)])], quit := false }]
    (by simp) (Or.inl rfl)
